import Mathlib

/-!
Verification of the mkforge Markdown parser module (src/parser/mod.rs):
the Flavor registry, ComrakOptions resolution, ParseConfig construction and
the extract_ast orchestrator. The comrak parsing core and the file system
are not part of the repository source and are modelled explicitly below.
-/

namespace Mkforge

/-- Supported Markdown flavors for parsing (enum Flavor in src/parser/mod.rs).
Currently only CommonMark and GitHub Flavored Markdown are implemented. -/
inductive Flavor where
  | CommonMark
  | GitHub
deriving DecidableEq, Repr

/-- Returns a string representation of the flavor (Flavor::as_string). -/
def Flavor.as_string : Flavor → String
  | .CommonMark => "CommonMark"
  | .GitHub => "GitHub Flavored Markdown"

/-- Parses a string to return the corresponding Flavor (Flavor::from_string). -/
def Flavor.from_string (s : String) : Option Flavor :=
  match s with
  | "CommonMark" => some Flavor.CommonMark
  | "GitHub" => some Flavor.GitHub
  | _ => none

/-- Extension toggles of the comrak library (comrak::ComrakExtensionOptions),
as the repository relies on them: every boolean toggle defaults to false and
the optional string settings default to absent, mirroring the derived Default
instance reached through Default::default() in Flavor::to_options. -/
structure ComrakExtensionOptions where
  strikethrough : Bool := false
  tagfilter : Bool := false
  table : Bool := false
  autolink : Bool := false
  tasklist : Bool := false
  superscript : Bool := false
  header_ids : Option String := none
  footnotes : Bool := false
  description_lists : Bool := false
  front_matter_delimiter : Option String := none
  multiline_block_quotes : Bool := false
  math_dollars : Bool := false
  math_code : Bool := false
  wikilinks_title_after_pipe : Bool := false
  wikilinks_title_before_pipe : Bool := false
  underline : Bool := false
  spoiler : Bool := false
  greentext : Bool := false
deriving DecidableEq, Repr

/-- List style variants of comrak's render options; the library default is dash. -/
inductive ListStyleType where
  | dash
  | plus
  | star
deriving DecidableEq, Repr

/-- Render toggles of the comrak library (comrak::ComrakRenderOptions) with the
library's Default values. -/
structure ComrakRenderOptions where
  hardbreaks : Bool := false
  github_pre_lang : Bool := false
  full_info_string : Bool := false
  width : Nat := 0
  escape : Bool := false
  list_style : ListStyleType := ListStyleType.dash
  sourcepos : Bool := false
  escaped_char_spans : Bool := false
  ignore_setext : Bool := false
  ignore_empty_links : Bool := false
  gfm_quirks : Bool := false
deriving DecidableEq, Repr

/-- Parse toggles of the comrak library (comrak::ComrakParseOptions) with the
library's Default values. -/
structure ComrakParseOptions where
  smart : Bool := false
  default_info_string : Option String := none
  relaxed_tasklist_matching : Bool := false
  relaxed_autolinks : Bool := false
deriving DecidableEq, Repr

/-- The comrak options record (comrak::ComrakOptions). -/
structure ComrakOptions where
  extension : ComrakExtensionOptions := {}
  parse : ComrakParseOptions := {}
  render : ComrakRenderOptions := {}
deriving DecidableEq, Repr

/-- The comrak library default options, ComrakOptions::default(). -/
def ComrakOptions.default : ComrakOptions := {}

/-- The library default extension options. -/
def ComrakExtensionOptions.default : ComrakExtensionOptions := {}

/-- The library default render options. -/
def ComrakRenderOptions.default : ComrakRenderOptions := {}

/-- The library default parse options. -/
def ComrakParseOptions.default : ComrakParseOptions := {}

/-- Converts the Flavor to ComrakOptions for parsing (Flavor::to_options):
CommonMark takes ComrakOptions::default(); GitHub sets the five GFM extension
toggles and two GFM render toggles on top of the defaults, as in the source's
struct-update expression with Default::default() for all remaining fields. -/
def Flavor.to_options : Flavor → ComrakOptions
  | .CommonMark => ComrakOptions.default
  | .GitHub =>
      { extension :=
          { table := true
            strikethrough := true
            autolink := true
            tagfilter := true
            tasklist := true }
        render :=
          { github_pre_lang := true
            gfm_quirks := true } }

/-- The named boolean toggles of an options record, paired with their values;
used to speak about the set of enabled options of a flavor. -/
def ComrakOptions.flagAssignment (o : ComrakOptions) : List (String × Bool) :=
  [("strikethrough", o.extension.strikethrough),
   ("tagfilter", o.extension.tagfilter),
   ("table", o.extension.table),
   ("autolink", o.extension.autolink),
   ("tasklist", o.extension.tasklist),
   ("superscript", o.extension.superscript),
   ("footnotes", o.extension.footnotes),
   ("description_lists", o.extension.description_lists),
   ("multiline_block_quotes", o.extension.multiline_block_quotes),
   ("math_dollars", o.extension.math_dollars),
   ("math_code", o.extension.math_code),
   ("underline", o.extension.underline),
   ("spoiler", o.extension.spoiler),
   ("greentext", o.extension.greentext),
   ("smart", o.parse.smart),
   ("relaxed_tasklist_matching", o.parse.relaxed_tasklist_matching),
   ("relaxed_autolinks", o.parse.relaxed_autolinks),
   ("hardbreaks", o.render.hardbreaks),
   ("github_pre_lang", o.render.github_pre_lang),
   ("full_info_string", o.render.full_info_string),
   ("escape", o.render.escape),
   ("sourcepos", o.render.sourcepos),
   ("escaped_char_spans", o.render.escaped_char_spans),
   ("ignore_setext", o.render.ignore_setext),
   ("ignore_empty_links", o.render.ignore_empty_links),
   ("gfm_quirks", o.render.gfm_quirks)]

/-- Names of the boolean toggles that an options record enables. -/
def ComrakOptions.enabledOptions (o : ComrakOptions) : List String :=
  (o.flagAssignment.filter (fun p => p.2)).map (fun p => p.1)

/-- Container for the state needed by the parser (struct ParseConfig):
resolved options, the flavor, and the file path. -/
structure ParseConfig where
  options : ComrakOptions
  flavor : Flavor
  file_path : String

/-- ParseConfig::new — resolves options from the flavor and stores the path
unchanged; it is a pure constructor and performs no file access. -/
def ParseConfig.new (file_path : String) (flavor : Flavor) : ParseConfig :=
  { options := flavor.to_options
    flavor := flavor
    file_path := file_path }

/-- OS-level causes an io::Error from a failed read can wrap. -/
inductive AccessCause where
  | notFound
  | permissionDenied
  | otherCause
deriving DecidableEq, Repr

/-- The error returned by extract_ast (std::io::Error as fs::read_to_string
produces it): either the file could not be read, wrapping the OS-level cause,
or the file content was not valid UTF-8 text (ErrorKind::InvalidData). -/
inductive Error where
  | fileAccess (cause : AccessCause)
  | invalidData
deriving DecidableEq, Repr

/-- What the file system holds at one path: readable text content, readable
bytes that are not valid UTF-8, or a read failure with its OS-level cause
(a missing file reads as a notFound failure). -/
inductive FileAccessResult where
  | content (s : String)
  | invalidBytes
  | readFailure (cause : AccessCause)
deriving DecidableEq, Repr

/-- A file system state, mapping each path to what reading it yields. -/
abbrev FileSystem : Type := String → FileAccessResult

/-- Modelled behavior of std::fs::read_to_string over a file system state:
the file content as a String on success, an io::Error otherwise, with invalid
UTF-8 reported as the InvalidData decoding failure. -/
def read_to_string (fs : FileSystem) (path : String) : Except Error String :=
  match fs path with
  | .content s => .ok s
  | .invalidBytes => .error Error.invalidData
  | .readFailure c => .error (Error.fileAccess c)

/-- A node of the Markdown abstract syntax tree, restricted to the node kinds
the verified scenarios exercise (document root, ATX heading, paragraph, text). -/
inductive Node where
  | document (children : List Node)
  | heading (level : Nat) (children : List Node)
  | paragraph (children : List Node)
  | text (s : String)
deriving Repr

/-- Splits a character list at every newline, keeping empty segments, so that
a document is a list of its lines. -/
def splitLines : List Char → List (List Char)
  | [] => [[]]
  | '\n' :: rest => [] :: splitLines rest
  | c :: rest =>
    match splitLines rest with
    | [] => [[c]]
    | l :: ls => (c :: l) :: ls

/-- The lines of a Markdown document. -/
def lines (md : String) : List String :=
  (splitLines md.toList).map String.mk

/-- Whitespace test for trimming. -/
def isWhitespaceChar (c : Char) : Bool :=
  c = ' ' || c = '\t' || c = '\n' || c = '\r'

/-- Drops leading whitespace of a character list. -/
def dropLeadingWs : List Char → List Char
  | [] => []
  | c :: rest => if isWhitespaceChar c then dropLeadingWs rest else c :: rest

/-- Trims whitespace from both ends of a character list. -/
def trimChars (cs : List Char) : List Char :=
  dropLeadingWs ((dropLeadingWs cs.reverse).reverse)

/-- A blank line: nothing left after trimming. -/
def isBlank (l : String) : Bool :=
  (trimChars l.toList).isEmpty

/-- Counts the leading hash marks of a line. -/
def countLeadingHashes : List Char → Nat
  | '#' :: rest => countLeadingHashes rest + 1
  | _ => 0

/-- Modelled from the spec: ATX heading recognition of the Tokenizer / Block
Scanner (spec 4.3), which is part of the comrak parsing core and not in this
repository's source. One to six hash marks followed by a space or the end of
the line open a heading whose text is the trimmed remainder. -/
def atxHeading (l : String) : Option (Nat × String) :=
  let cs := l.toList
  let n := countLeadingHashes cs
  let rest := cs.drop n
  if 1 ≤ n && n ≤ 6 && (rest.isEmpty || rest.head? == some ' ') then
    some (n, String.mk (trimChars rest))
  else none

/-- Modelled from the spec: the block scan of the Tokenizer / Block Scanner
(spec 4.3) for the block kinds the claims exercise. Lines are consumed in
order with an accumulator of open paragraph lines: a blank line closes the
open paragraph, an ATX heading closes it and emits a heading block (headings
take priority over paragraph continuation), and any other line continues the
paragraph. Paragraph text joins its trimmed lines with newlines. -/
def buildBlocks (acc : List String) : List String → List Node
  | [] =>
    match acc with
    | [] => []
    | _ => [Node.paragraph [Node.text (String.intercalate "\n" acc)]]
  | l :: rest =>
    if isBlank l then
      (match acc with
       | [] => []
       | _ => [Node.paragraph [Node.text (String.intercalate "\n" acc)]])
        ++ buildBlocks [] rest
    else
      match atxHeading l with
      | some nt =>
        (match acc with
         | [] => []
         | _ => [Node.paragraph [Node.text (String.intercalate "\n" acc)]])
          ++ Node.heading nt.1 [Node.text nt.2] :: buildBlocks [] rest
      | none => buildBlocks (acc ++ [String.mk (trimChars l.toList)]) rest

/-- Modelled from the spec: comrak::parse_document, the Parse Orchestrator's
parsing step (spec 4.2 through 4.5), which lives in the comrak library and not
in this repository's source. It is a pure function of the content and the
options; the root is always a document node whose children are the top-level
blocks in source order. -/
def parse_document (md : String) (options : ComrakOptions) : Node :=
  match options with
  | _ => Node.document (buildBlocks [] (lines md))

/-- Extracts the AST for a given parse configuration (extract_ast): reads the
file content, parses it with the resolved options, and returns the root node;
a failed read propagates its error and no tree is produced. -/
def extract_ast (config : ParseConfig) (fs : FileSystem) : Except Error Node :=
  match read_to_string fs config.file_path with
  | .error e => .error e
  | .ok md => .ok (parse_document md config.options)

/-- A file system on which every read fails with a not-found error. -/
def fsAllMissing : FileSystem := fun _ => FileAccessResult.readFailure AccessCause.notFound

/-- A file system on which every file holds bytes that are not valid UTF-8. -/
def fsAllInvalid : FileSystem := fun _ => FileAccessResult.invalidBytes

/-- A file system holding the test document of the repository's test suite at
the path test.md and nothing else. -/
def fsHeadingDoc : FileSystem := fun p =>
  if p = "test.md" then FileAccessResult.content "# Heading\n\nSome content."
  else FileAccessResult.readFailure AccessCause.notFound

/-- A file system on which every path reads as the same one-line document. -/
def fsConstHeading : FileSystem := fun _ => FileAccessResult.content "# Heading"

/-- Claim C1, counterexample: the round-trip from_string (as_string f) = some f
fails at f = GitHub, because as_string gives the long name GitHub Flavored
Markdown while from_string only recognizes the short name GitHub, so the
round-trip at GitHub yields none rather than some GitHub. -/
theorem flavor_roundtrip_counterexample :
    Flavor.from_string Flavor.GitHub.as_string = none ∧
    Flavor.GitHub.as_string = "GitHub Flavored Markdown" := by decide

/-- Claim C1, amended: the round-trip from_string (as_string f) = some f holds
for CommonMark; for GitHub it yields none, since as_string returns GitHub
Flavored Markdown, a name from_string does not recognize. -/
theorem flavor_roundtrip_amended :
    Flavor.from_string Flavor.CommonMark.as_string = some Flavor.CommonMark ∧
    Flavor.from_string Flavor.GitHub.as_string = none := by decide

/-- Claim C2: to_options CommonMark has every GFM-specific extension flag
(table, strikethrough, autolink, tagfilter, tasklist) disabled, and
to_options GitHub has all five of those flags enabled. -/
theorem to_options_gfm_extension_flags :
    (Flavor.CommonMark.to_options).extension.table = false ∧
    (Flavor.CommonMark.to_options).extension.strikethrough = false ∧
    (Flavor.CommonMark.to_options).extension.autolink = false ∧
    (Flavor.CommonMark.to_options).extension.tagfilter = false ∧
    (Flavor.CommonMark.to_options).extension.tasklist = false ∧
    (Flavor.GitHub.to_options).extension.table = true ∧
    (Flavor.GitHub.to_options).extension.strikethrough = true ∧
    (Flavor.GitHub.to_options).extension.autolink = true ∧
    (Flavor.GitHub.to_options).extension.tagfilter = true ∧
    (Flavor.GitHub.to_options).extension.tasklist = true := by decide

/-- Claim C3: the set of boolean options that to_options CommonMark enables is
contained in the set that to_options GitHub enables, and GitHub enables at
least one option (table) that CommonMark leaves disabled, so GitHub's enabled
set is a strict superset of the CommonMark baseline. -/
theorem to_options_enabled_strict_superset :
    ((Flavor.CommonMark.to_options).enabledOptions.all
      (fun x => (Flavor.GitHub.to_options).enabledOptions.contains x) = true) ∧
    ((Flavor.GitHub.to_options).enabledOptions.contains "table" = true) ∧
    ((Flavor.CommonMark.to_options).enabledOptions.contains "table" = false) := by decide

/-- Claim C4: from_string s returns some exactly for the two literal strings
CommonMark and GitHub (mapping each to its flavor); for every other string it
returns none, never an error and never a default flavor. -/
theorem from_string_domain (s : String) :
    ((Flavor.from_string s).isSome ↔ s = "CommonMark" ∨ s = "GitHub") ∧
    Flavor.from_string "CommonMark" = some Flavor.CommonMark ∧
    Flavor.from_string "GitHub" = some Flavor.GitHub := by
  refine ⟨?_, rfl, rfl⟩
  unfold Flavor.from_string
  split
  · simp
  · simp
  · rename_i h1 h2
    simp_all

/-- Witness for C4 at the unrecognized string Unknown. -/
theorem from_string_domain_witness :
    ((Flavor.from_string "Unknown").isSome ↔
      "Unknown" = "CommonMark" ∨ "Unknown" = "GitHub") ∧
    Flavor.from_string "CommonMark" = some Flavor.CommonMark ∧
    Flavor.from_string "GitHub" = some Flavor.GitHub :=
  from_string_domain "Unknown"

/-- Claim C5: when the configured path reads as a not-found failure (the file
does not exist), extract_ast returns exactly the file-access error wrapping
that cause — never an ok tree, and no partial AST. -/
theorem extract_ast_missing_file (fs : FileSystem) (config : ParseConfig)
    (h : fs config.file_path = FileAccessResult.readFailure AccessCause.notFound) :
    extract_ast config fs = Except.error (Error.fileAccess AccessCause.notFound) := by
  unfold extract_ast read_to_string
  rw [h]

/-- Witness for C5 on a file system where every read fails as not found. -/
theorem extract_ast_missing_file_witness :
    extract_ast (ParseConfig.new "absent.md" Flavor.GitHub) fsAllMissing =
      Except.error (Error.fileAccess AccessCause.notFound) :=
  extract_ast_missing_file fsAllMissing (ParseConfig.new "absent.md" Flavor.GitHub) rfl

/-- Claim C6: every error extract_ast returns is one of exactly two kinds,
each tied to its trigger: a file-access failure wrapping the OS-level cause
with which the read failed, or the decoding failure when the file's content
is not valid UTF-8 text. -/
theorem extract_ast_error_kinds (fs : FileSystem) (config : ParseConfig) (e : Error)
    (h : extract_ast config fs = Except.error e) :
    (∃ cause, fs config.file_path = FileAccessResult.readFailure cause ∧
      e = Error.fileAccess cause) ∨
    (fs config.file_path = FileAccessResult.invalidBytes ∧ e = Error.invalidData) := by
  unfold extract_ast read_to_string at h
  cases hfs : fs config.file_path with
  | content s => rw [hfs] at h; simp at h
  | invalidBytes => rw [hfs] at h; simp at h; right; exact ⟨rfl, h.symm⟩
  | readFailure c => rw [hfs] at h; simp at h; left; exact ⟨c, rfl, h.symm⟩

/-- Witness for C6 on a file system whose content is not valid UTF-8. -/
theorem extract_ast_error_kinds_witness :
    (∃ cause, fsAllInvalid "x.md" = FileAccessResult.readFailure cause ∧
      Error.invalidData = Error.fileAccess cause) ∨
    (fsAllInvalid "x.md" = FileAccessResult.invalidBytes ∧
      Error.invalidData = Error.invalidData) :=
  extract_ast_error_kinds fsAllInvalid (ParseConfig.new "x.md" Flavor.CommonMark)
    Error.invalidData rfl

/-- Claim C7: parsing is deterministic — two extract_ast calls whose reads
yield the same content, under configurations built from the same flavor,
return identical results (structurally identical trees), regardless of the
paths or file-system states involved. -/
theorem extract_ast_deterministic (fs1 fs2 : FileSystem) (p1 p2 : String)
    (f : Flavor) (md : String)
    (h1 : fs1 p1 = FileAccessResult.content md)
    (h2 : fs2 p2 = FileAccessResult.content md) :
    extract_ast (ParseConfig.new p1 f) fs1 = extract_ast (ParseConfig.new p2 f) fs2 := by
  unfold extract_ast read_to_string ParseConfig.new
  dsimp only
  rw [h1, h2]

/-- Witness for C7: two different paths holding the same document parse to the
same result. -/
theorem extract_ast_deterministic_witness :
    extract_ast (ParseConfig.new "a.md" Flavor.GitHub) fsConstHeading =
      extract_ast (ParseConfig.new "b.md" Flavor.GitHub) fsConstHeading :=
  extract_ast_deterministic fsConstHeading fsConstHeading "a.md" "b.md"
    Flavor.GitHub "# Heading" rfl rfl

/-- Claim C8: parsing the document consisting of a heading line, a blank line
and a content line under the CommonMark flavor returns a root document node
with exactly two children in order: a level-1 heading with text Heading,
then a paragraph with text Some content. -/
theorem extract_ast_heading_scenario :
    extract_ast (ParseConfig.new "test.md" Flavor.CommonMark) fsHeadingDoc =
      Except.ok (Node.document
        [Node.heading 1 [Node.text "Heading"],
         Node.paragraph [Node.text "Some content."]]) := by rfl

/-- Claim C9: beyond the five extension flags, to_options GitHub also enables
the render options github_pre_lang and gfm_quirks, while to_options CommonMark
leaves every render option at the library default. -/
theorem to_options_render_settings :
    (Flavor.GitHub.to_options).render.github_pre_lang = true ∧
    (Flavor.GitHub.to_options).render.gfm_quirks = true ∧
    (Flavor.CommonMark.to_options).render = ComrakRenderOptions.default := by decide

/-- Claim C10: ParseConfig.new is a total pure constructor: for every path and
flavor it succeeds, storing the given path unchanged, the options resolved
from the flavor, and the flavor itself; it performs no file access. -/
theorem parseConfig_new_stores_fields (p : String) (f : Flavor) :
    (ParseConfig.new p f).file_path = p ∧
    (ParseConfig.new p f).options = f.to_options ∧
    (ParseConfig.new p f).flavor = f :=
  ⟨rfl, rfl, rfl⟩

end Mkforge
